import Mathlib

/-!
Verification development for the Meteor-Madness asteroid impact/deflection
repository.

Part 1 embeds the client-side parameter extraction of
`src/unnamed/part_003` (`ScenarioSetup`, function `extractParametersFromSBDB`,
lines 138-346).  JavaScript numbers are modelled as exact rationals (`ℚ`);
SBDB entries whose `parseFloat` yields `NaN` are dropped by the source
(line 200), so an absent-or-unparseable value is modelled as `none`.
JavaScript truthiness of a number (used in the source's `if (params.x)`
guards) is "present and nonzero".

Part 2 models the server-side physics engine.  Its implementation
(`physics_engine.py`, served at `/physics/impact-analysis`) is not among the
source files; only its documentation (`src/server/ASTEROID_API.md`) and test
reports (`src/unnamed/part_000`) are.  Those components are therefore
modelled from the spec, with a `Modelled from the spec:` note on each.
-/

namespace MeteorMadness

/-- Composition classes of `part_003` lines 291-299 / the server API
(`ASTEROID_API.md` lines 243-247): the four valid composition strings. -/
inductive Composition
  | ROCKY
  | METALLIC
  | ICY
  | CARBONACEOUS
deriving DecidableEq

/-- JavaScript truthiness of an optional number: absent and `0` are falsy.
`NaN` entries are already dropped at parse time (part_003 line 200), so they
are covered by `none`. -/
def truthy : Option ℚ → Bool
  | none => false
  | some x => decide (x ≠ 0)

/-- The source's `Math.PI` (part_003 line 316), modelled by the decimal
printed value of the IEEE double; its exact value is irrelevant to every
claim proved below. -/
def mathPI : ℚ := 3.141592653589793

/-- The parameters relevant to extraction, as they stand after the
`phys_par` / orbital-element parsing loops of part_003 lines 195-274:
each is the parsed number, or `none` when absent or unparseable.
`diameter_km` and `density_gcm3` are in the raw SBDB units; the source
converts them (lines 208, 223) as part of the loop. -/
structure SBDBInput where
  diameter_km : Option ℚ
  density_gcm3 : Option ℚ
  mass_kg : Option ℚ
  geometric_albedo : Option ℚ
  eccentricity : Option ℚ
  semi_major_axis_au : Option ℚ
  inclination_deg : Option ℚ
deriving DecidableEq

/-- The fields of the `params` object produced by
`extractParametersFromSBDB` that the claims are about.  `typical_velocity_sq`
holds the radicand of the source's `typical_velocity` (see
`typical_velocity_model`): the source stores
`sqrt(earthVelocity² + asteroidVelocity²)`, which we keep exact by storing
the value under the square root. -/
structure ExtractedParams where
  diameter : Option ℚ
  density : Option ℚ
  mass : Option ℚ
  composition : Composition
  typical_velocity_sq : Option ℚ
  typical_angle : Option ℚ
deriving DecidableEq

/-- part_003 lines 304-310 and 328-334: the composition → density map used
when density is falsy (`!params.density`).  The `|| 2500` fallback of
lines 310/334 is unreachable because all four keys are present. -/
def densityMap : Composition → ℚ
  | .ROCKY => 2500
  | .METALLIC => 5000
  | .CARBONACEOUS => 1500
  | .ICY => 900

/-- part_003 lines 276-282: `typical_velocity` is computed only under
`if (params.semi_major_axis && params.eccentricity)` — JavaScript truthiness,
so both must be present and nonzero.  `asteroidVelocity =
Math.sqrt(398600.4418 / (a · 149597870.7))` and the stored value is
`Math.sqrt(29.78² + asteroidVelocity²)`; we return the radicand
`29.78² + 398600.4418 / (a · 149597870.7)` (exact for `a > 0`, where the
inner square root composes with the square). -/
def typicalVelocitySq (a e : Option ℚ) : Option ℚ :=
  match a, e with
  | some av, some ev =>
      if truthy (some av) && truthy (some ev) then
        some (29.78 ^ 2 + 398600.4418 / (av * 149597870.7))
      else none
  | _, _ => none

/-- part_003 lines 285-287: `typical_angle = Math.min(90, Math.max(15,
inclination · 0.5 + 30))`, computed whenever `params.inclination !==
undefined` (presence, not truthiness — inclination 0 counts). -/
def typicalAngle : Option ℚ → Option ℚ
  | some i => some (min 90 (max 15 (i * 0.5 + 30)))
  | none => none

/-- part_003 lines 290-300: albedo-based composition classification.
`> 0.2 → METALLIC`, `< 0.05 → CARBONACEOUS`, otherwise (including absent
albedo) `ROCKY`. -/
def compositionOfAlbedo : Option ℚ → Composition
  | some alb =>
      if alb > 0.2 then .METALLIC
      else if alb < 0.05 then .CARBONACEOUS
      else .ROCKY
  | none => .ROCKY

/-- part_003 lines 303-311 (and the identical repeat at lines 327-336):
`if (!params.density && params.composition) params.density =
densityMap[params.composition] || 2500`.  `params.composition` is always a
nonempty string at this point, hence truthy. -/
def fillDensity (d : Option ℚ) (c : Composition) : Option ℚ :=
  if truthy d then d else some (densityMap c)

/-- part_003 lines 313-319: `if (params.diameter && !params.mass &&
params.density) { radius = diameter/2; volume = (4/3)·π·radius³;
mass = volume · density }`. -/
def fillMass (dia m rho : Option ℚ) : Option ℚ :=
  if truthy dia && !(truthy m) && truthy rho then
    match dia, rho with
    | some d, some p => some ((4 / 3 * mathPI * (d / 2) ^ 3) * p)
    | _, _ => m
  else m

/-- `extractParametersFromSBDB`, part_003 lines 138-346, restricted to the
numeric fields the claims are about.  Unit conversions (lines 208, 223):
diameter km → m and density g/cm³ → kg/m³, both `· 1000`.  The derived
fields follow in source order: typical velocity (276-282), typical angle
(284-287), composition (289-300), density default (302-311), mass (313-319);
lines 322-325 (`if (!params.composition)`) are unreachable because
composition is always set, and lines 327-336 repeat the density default. -/
def extractParametersFromSBDB (inp : SBDBInput) : ExtractedParams :=
  let diameter := inp.diameter_km.map (· * 1000)
  let density0 := inp.density_gcm3.map (· * 1000)
  let comp := compositionOfAlbedo inp.geometric_albedo
  let density1 := fillDensity density0 comp
  let mass1 := fillMass diameter inp.mass_kg density1
  { diameter := diameter
    density := fillDensity density1 comp
    mass := mass1
    composition := comp
    typical_velocity_sq := typicalVelocitySq inp.semi_major_axis_au inp.eccentricity
    typical_angle := typicalAngle inp.inclination_deg }

/-- The source's `typical_velocity` value itself (part_003 line 281):
the real square root of the stored radicand.  Faithful to the floating
computation for positive semi-major axis (for `a < 0` the source produces
`NaN`, which has no rational counterpart). -/
noncomputable def typicalVelocityModel (inp : SBDBInput) : Option ℝ :=
  ((extractParametersFromSBDB inp).typical_velocity_sq).map fun q => Real.sqrt (q : ℝ)

/-- Errors of the server engine: spec §7's taxonomy.  `ValidationError`
carries the offending field's name. -/
inductive EngineError
  | ComputationDegenerate
  | ValidationError (field : String)
deriving DecidableEq

/-- Modelled from the spec: the Energy Calculator of §4.3 lives in the
absent `physics_engine.py`; `src/unnamed/part_000` lines 93-96 record its
tested laws.  `KE_J = 0.5 · mass · velocity²`,
`tnt_equivalent_Mt = KE_J / 4.184e15`; a total function (no failure mode on
validated inputs). -/
structure EnergyResult where
  kinetic_energy_J : ℚ
  tnt_equivalent_Mt : ℚ
deriving DecidableEq

/-- Modelled from the spec: §4.3's Energy Calculator. -/
def calculateEnergy (mass_kg velocity_ms : ℚ) : EnergyResult :=
  { kinetic_energy_J := 1 / 2 * mass_kg * velocity_ms ^ 2
    tnt_equivalent_Mt := 1 / 2 * mass_kg * velocity_ms ^ 2 / 4.184e15 }

/-- Modelled from the spec: the Deflection Feasibility Analyzer's result
record (§3, §4.7); the open-form `success_probability` is settled by no
claim and is omitted. -/
structure DeflectionAssessment where
  feasible : Bool
  required_energy_J : ℚ
  available_energy_J : ℚ
  energy_ratio : ℚ
deriving DecidableEq

/-- Modelled from the spec: §4.7's Deflection Feasibility Analyzer
(implementation absent from the source files).  `Δv = distance / time`,
`required = 0.5 · mass · Δv²`, failing with `ComputationDegenerate` when the
required energy is nonpositive, otherwise `feasible = (available ≥
required)` and `energy_ratio = available / required`.  (In `ℚ`,
division by a zero warning time gives `Δv = 0`, hence the degenerate
branch; the float `Infinity`/`NaN` values the spec rules out are not
representable here.) -/
def assessDeflection (mass_kg deflection_distance_m warning_time_s
    available_energy_J : ℚ) : Except EngineError DeflectionAssessment :=
  let dv := deflection_distance_m / warning_time_s
  let req := 1 / 2 * mass_kg * dv ^ 2
  if req ≤ 0 then .error .ComputationDegenerate
  else .ok ⟨decide (available_energy_J ≥ req), req, available_energy_J,
    available_energy_J / req⟩

/-- Modelled from the spec: the part of the `analyze_impact` report (§6)
settled by the deflection claims — the energy section plus the optional
`deflection_analysis` section. -/
structure ImpactReport where
  energy : EnergyResult
  deflection : Option (Except EngineError DeflectionAssessment)

/-- Modelled from the spec: §4.7/§6 — the deflection section is attached to
the report exactly when `deflection_distance_m`, `warning_time_s` and
`available_energy_J` are all supplied; otherwise it is entirely absent
(`none`), never null-filled. -/
def analyzeImpact (mass_kg velocity_ms : ℚ)
    (deflection_distance_m warning_time_s available_energy_J : Option ℚ) :
    ImpactReport :=
  { energy := calculateEnergy mass_kg velocity_ms
    deflection :=
      match deflection_distance_m, warning_time_s, available_energy_J with
      | some d, some w, some a => some (assessDeflection mass_kg d w a)
      | _, _, _ => none }

/-- Raw inputs of the Parameter Resolver (§4.1): required diameter plus the
optional fields, the composition still a raw string as in the HTTP query. -/
structure RawImpactInput where
  diameter : ℚ
  mass : Option ℚ
  density : Option ℚ
  composition : Option String
  velocity : Option ℚ
  angle : Option ℚ
  population_density : Option ℚ
deriving DecidableEq

/-- Modelled from the spec: composition parsing — the allowed set
{ROCKY, METALLIC, ICY, CARBONACEOUS} of §3 / `ASTEROID_API.md` lines
243-247, defaulting to ROCKY when absent. -/
def parseCompositionString : Option String → Option Composition
  | none => some .ROCKY
  | some s =>
      if s = "ROCKY" then some .ROCKY
      else if s = "METALLIC" then some .METALLIC
      else if s = "ICY" then some .ICY
      else if s = "CARBONACEOUS" then some .CARBONACEOUS
      else none

/-- Modelled from the spec: §4.1's composition default density table
(`ASTEROID_API.md` lines 244-247). -/
def specDensity : Composition → ℚ
  | .ROCKY => 2600
  | .METALLIC => 7800
  | .ICY => 1000
  | .CARBONACEOUS => 1380

/-- Modelled from the spec: §4.1's matching material strength table
(`ASTEROID_API.md` lines 244-247). -/
def specStrength : Composition → ℚ
  | .ROCKY => 1e6
  | .METALLIC => 5e8
  | .ICY => 1e5
  | .CARBONACEOUS => 5e5

/-- A fully resolved `AsteroidProperties + ImpactScenario` record (§3). -/
structure ResolvedParameters where
  diameter_m : ℚ
  mass_kg : ℚ
  density_kg_m3 : ℚ
  strength_Pa : ℚ
  composition : Composition
  velocity_ms : ℚ
  angle_deg : ℚ
  population_density_per_km2 : ℚ
deriving DecidableEq

/-- True when an optionally supplied value is present and nonpositive. -/
def suppliedNonpos : Option ℚ → Bool
  | none => false
  | some x => decide (x ≤ 0)

/-- True when an optionally supplied angle is present and outside [0, 90]. -/
def suppliedBadAngle : Option ℚ → Bool
  | none => false
  | some x => decide (x < 0 ∨ 90 < x)

/-- True when an optionally supplied value is present and negative. -/
def suppliedNeg : Option ℚ → Bool
  | none => false
  | some x => decide (x < 0)

/-- Modelled from the spec: §4.1's Parameter Resolver (implementation
absent from the source files).  Validation in the spec's listed order —
diameter ≤ 0, mass ≤ 0 (if given), density ≤ 0 (if given), velocity ≤ 0,
angle ∉ [0,90], population_density < 0, composition not in the allowed
set — each failing with a `ValidationError` naming the field and returning
no partial object; on success missing density comes from the composition
table, missing mass from `density · (4/3) · π · (diameter/2)³`, and
missing velocity/angle/population density from 20000 / 45 / 100. -/
def resolveParameters (inp : RawImpactInput) : Except EngineError ResolvedParameters :=
  if inp.diameter ≤ 0 then .error (.ValidationError "diameter")
  else if suppliedNonpos inp.mass then .error (.ValidationError "mass")
  else if suppliedNonpos inp.density then .error (.ValidationError "density")
  else if suppliedNonpos inp.velocity then .error (.ValidationError "velocity")
  else if suppliedBadAngle inp.angle then .error (.ValidationError "angle")
  else if suppliedNeg inp.population_density then
    .error (.ValidationError "population_density")
  else
    match parseCompositionString inp.composition with
    | none => .error (.ValidationError "composition")
    | some c =>
        let rho := inp.density.getD (specDensity c)
        .ok { diameter_m := inp.diameter
              mass_kg := inp.mass.getD (rho * (4 / 3 * mathPI * (inp.diameter / 2) ^ 3))
              density_kg_m3 := rho
              strength_Pa := specStrength c
              composition := c
              velocity_ms := inp.velocity.getD 20000
              angle_deg := inp.angle.getD 45
              population_density_per_km2 := inp.population_density.getD 100 }

/-- The fixed catalog of damage-zone kinds (§4.5, `ASTEROID_API.md` lines
399-404). -/
inductive ZoneKind
  | thermal_burns
  | op_total_destruction
  | op_severe_damage
  | op_moderate_damage
  | op_light_damage
deriving DecidableEq

/-- The `type` field of each zone (`ASTEROID_API.md` lines 400-404). -/
def zoneName : ZoneKind → String
  | .thermal_burns => "thermal_burns"
  | .op_total_destruction => "overpressure_total_destruction"
  | .op_severe_damage => "overpressure_severe_damage"
  | .op_moderate_damage => "overpressure_moderate_damage"
  | .op_light_damage => "overpressure_light_damage"

/-- Representative color codes (`ASTEROID_API.md` lines 400-404: red, dark
red, orange-red, orange, yellow). -/
def zoneColor : ZoneKind → String
  | .thermal_burns => "#FF0000"
  | .op_total_destruction => "#8B0000"
  | .op_severe_damage => "#FF4500"
  | .op_moderate_damage => "#FFA500"
  | .op_light_damage => "#FFFF00"

/-- A damage zone as returned in `impact_radii_gradient` (§3,
`ASTEROID_API.md` lines 332-350). -/
structure DamageZone where
  type : String
  severity_level : ℕ
  radius_m : ℚ
  color_code : String
deriving DecidableEq

/-- Modelled from the spec: §4.5's radius laws, with the kinetic energy
parametrized through `s = KE^(1/6)` so the laws stay exact: the thermal
radius scales with `sqrt KE = s³` and each overpressure radius with
`KE^(1/3) = s²`.  The per-kind coefficients stand for the spec's
threshold constants (`C / P^(1/3)` for the four decreasing overpressure
thresholds, hence four increasing coefficients); the spec fixes the
functional form but not their numeric values, so representative positive
rationals are used. -/
def radiusLaw : ZoneKind → ℚ → ℚ
  | .thermal_burns, s => 1 * s ^ 3
  | .op_total_destruction, s => 1 * s ^ 2
  | .op_severe_damage, s => 2 * s ^ 2
  | .op_moderate_damage, s => 3 * s ^ 2
  | .op_light_damage, s => 4 * s ^ 2

/-- Catalog order as documented (`ASTEROID_API.md` lines 400-404). -/
def zoneCatalog : List ZoneKind :=
  [.thermal_burns, .op_total_destruction, .op_severe_damage,
   .op_moderate_damage, .op_light_damage]

/-- The documented severity levels (thermal and total destruction most
severe; `ASTEROID_API.md` example lines 332-348 shows thermal 1, light 4). -/
def sevSpec : ZoneKind → ℕ
  | .thermal_burns => 1
  | .op_total_destruction => 1
  | .op_severe_damage => 2
  | .op_moderate_damage => 3
  | .op_light_damage => 4

/-- One candidate zone; the severity assignment is a parameter so that the
ordering's independence from severity can be stated. -/
def mkZone (sev : ZoneKind → ℕ) (s : ℚ) (k : ZoneKind) : DamageZone :=
  ⟨zoneName k, sev k, radiusLaw k s, zoneColor k⟩

/-- Modelled from the spec: §4.5 — zones with nonpositive radius are
omitted entirely (never emitted as zero or null; `NaN` has no rational
counterpart). -/
def zoneCandidates (sev : ZoneKind → ℕ) (s : ℚ) : List DamageZone :=
  (zoneCatalog.map (mkZone sev s)).filter fun z => decide (0 < z.radius_m)

/-- The comparator of the gradient sort: radius descending.  It reads only
`radius_m`. -/
def radiusDesc (z w : DamageZone) : Prop := w.radius_m ≤ z.radius_m

instance : DecidableRel radiusDesc := fun z w =>
  inferInstanceAs (Decidable (w.radius_m ≤ z.radius_m))

instance : IsTotal DamageZone radiusDesc :=
  ⟨fun z w => le_total w.radius_m z.radius_m⟩

instance : IsTrans DamageZone radiusDesc :=
  ⟨fun _ _ _ h h' => le_trans h' h⟩

/-- Modelled from the spec: §4.5's Damage Zone Generator (implementation
absent from the source files) — the candidate zones, nonpositive radii
omitted, sorted by radius descending. -/
def impactRadiiGradient (sev : ZoneKind → ℕ) (s : ℚ) : List DamageZone :=
  List.insertionSort radiusDesc (zoneCandidates sev s)

/-- Projection of a zone to the data the ordering may depend on. -/
def zoneShadow (z : DamageZone) : String × ℚ := (z.type, z.radius_m)

/-- The comparator `radiusDesc` transported along `zoneShadow`. -/
def shadowDesc (p q : String × ℚ) : Prop := q.2 ≤ p.2

instance : DecidableRel shadowDesc := fun p q =>
  inferInstanceAs (Decidable (q.2 ≤ p.2))

instance {e a : Type} [DecidableEq e] [DecidableEq a] :
    DecidableEq (Except e a) := fun x y =>
  match x, y with
  | .error u, .error v =>
      if h : u = v then .isTrue (by rw [h]) else .isFalse (by simp [h])
  | .ok u, .ok v =>
      if h : u = v then .isTrue (by rw [h]) else .isFalse (by simp [h])
  | .error _, .ok _ => .isFalse (by simp)
  | .ok _, .error _ => .isFalse (by simp)

/-- Concrete resolver input: 10 m ICY body with density unsupplied. -/
def c1wInput : RawImpactInput := ⟨10, none, none, some "ICY", none, none, none⟩

/-- Concrete resolver input with angle 95°, outside [0, 90]. -/
def c6wInput : RawImpactInput := ⟨20, none, none, none, none, some 95, none⟩

/-- Concrete SBDB input whose density entry parses to 0 (a falsy explicit
value). -/
def c7cex : SBDBInput := ⟨none, some 0, none, none, none, none, none⟩

/-- Concrete SBDB input with explicit density 2 g/cm³ and mass 5 kg. -/
def c7w : SBDBInput := ⟨none, some 2, some 5, none, none, none, none⟩

/-- Concrete SBDB input with both orbital elements present but
eccentricity 0 (falsy). -/
def c8cex : SBDBInput := ⟨none, none, none, none, some 0, some 2, none⟩

/-- Concrete SBDB input with semi-major axis 1 au, eccentricity 1/2. -/
def c8w : SBDBInput := ⟨none, none, none, none, some (1 / 2), some 1, none⟩

/-- Concrete SBDB input with inclination 10°. -/
def c9w : SBDBInput := ⟨none, none, none, none, none, none, some 10⟩

/-- Claim C1: when density is not supplied, the Parameter Resolver fills
density and material strength from the composition default table —
ROCKY 2600 / 1e6, METALLIC 7800 / 5e8, ICY 1000 / 1e5,
CARBONACEOUS 1380 / 5e5. -/
theorem c1_resolver_density_defaults (inp : RawImpactInput)
    (r : ResolvedParameters) (hok : resolveParameters inp = .ok r)
    (hnd : inp.density = none) :
    r.density_kg_m3 = specDensity r.composition ∧
    r.strength_Pa = specStrength r.composition ∧
    specDensity .ROCKY = 2600 ∧ specDensity .METALLIC = 7800 ∧
    specDensity .ICY = 1000 ∧ specDensity .CARBONACEOUS = 1380 ∧
    specStrength .ROCKY = 1e6 ∧ specStrength .METALLIC = 5e8 ∧
    specStrength .ICY = 1e5 ∧ specStrength .CARBONACEOUS = 5e5 := by
  unfold resolveParameters at hok
  split_ifs at hok
  cases hc : parseCompositionString inp.composition with
  | none => rw [hc] at hok; exact absurd hok (by simp)
  | some c =>
      rw [hc] at hok
      simp only [Except.ok.injEq] at hok
      subst hok
      refine ⟨?_, rfl, rfl, rfl, rfl, rfl, rfl, rfl, rfl, rfl⟩
      simp [hnd]

/-- Witness for C1 at a concrete ICY input with density absent. -/
theorem c1_resolver_density_defaults_witness :
    ∃ r, resolveParameters c1wInput = .ok r ∧
      r.density_kg_m3 = 1000 ∧ r.strength_Pa = 1e5 ∧ r.composition = .ICY := by
  have hok : resolveParameters c1wInput = .ok
      { diameter_m := 10
        mass_kg := specDensity .ICY * (4 / 3 * mathPI * (10 / 2) ^ 3)
        density_kg_m3 := specDensity .ICY
        strength_Pa := specStrength .ICY
        composition := .ICY
        velocity_ms := 20000
        angle_deg := 45
        population_density_per_km2 := 100 } := by
    norm_num [resolveParameters, c1wInput, suppliedNonpos, suppliedBadAngle,
      suppliedNeg, parseCompositionString]
    rfl
  have h := c1_resolver_density_defaults c1wInput _ hok rfl
  exact ⟨_, hok, h.1.trans rfl, h.2.1.trans rfl, rfl⟩

/-- Shadow of the candidate list is independent of the severity
assignment. -/
theorem zoneCandidates_shadow (sv : ZoneKind → ℕ) (s : ℚ) :
    (zoneCandidates sv s).map zoneShadow =
      (zoneCatalog.filter fun k => decide (0 < radiusLaw k s)).map
        fun k => (zoneName k, radiusLaw k s) := by
  unfold zoneCandidates
  rw [List.filter_map, List.map_map]
  rfl

/-- Claim C2 (amended): the damage-zone gradient is sorted descending by
`radius_m` (weakly: the thermal square-root law can tie an overpressure
cube-root law at isolated energies, see `c2_strict_descent_fails`), the
ordering is independent of the `severity_level` assignment, and it is
strictly descending whenever the computed radii are pairwise distinct. -/
theorem c2_gradient_sorted_descending (sev sev' : ZoneKind → ℕ) (s : ℚ) :
    List.Sorted radiusDesc (impactRadiiGradient sev s) ∧
    (impactRadiiGradient sev s).map zoneShadow =
      (impactRadiiGradient sev' s).map zoneShadow ∧
    (List.Pairwise (fun z w : DamageZone => z.radius_m ≠ w.radius_m)
        (impactRadiiGradient sev s) →
      List.Sorted (fun z w : DamageZone => w.radius_m < z.radius_m)
        (impactRadiiGradient sev s)) := by
  have key : ∀ sv : ZoneKind → ℕ,
      (impactRadiiGradient sv s).map zoneShadow =
        List.insertionSort shadowDesc ((zoneCandidates sv s).map zoneShadow) :=
    fun sv =>
      List.map_insertionSort radiusDesc shadowDesc zoneShadow _
        fun _ _ _ _ => Iff.rfl
  refine ⟨List.sorted_insertionSort radiusDesc _, ?_, ?_⟩
  · rw [key sev, key sev', zoneCandidates_shadow, zoneCandidates_shadow]
  · intro hne
    exact ((List.sorted_insertionSort radiusDesc _).and hne).imp
      fun h => lt_of_le_of_ne h.1 (Ne.symm h.2)

/-- Witness for C2's strict part at `s = 5`, where the five radii are
pairwise distinct. -/
theorem c2_gradient_sorted_descending_witness :
    List.Pairwise (fun z w : DamageZone => z.radius_m ≠ w.radius_m)
      (impactRadiiGradient sevSpec 5) ∧
    List.Sorted (fun z w : DamageZone => w.radius_m < z.radius_m)
      (impactRadiiGradient sevSpec 5) :=
  ⟨by with_unfolding_all decide,
    (c2_gradient_sorted_descending sevSpec sevSpec 5).2.2 (by with_unfolding_all decide)⟩

/-- Counterexample to C2 as stated: at `s = 4` (energy `s⁶`) the thermal
radius ties the light-damage radius, so the gradient is descending but not
strictly descending. -/
theorem c2_strict_descent_fails :
    (impactRadiiGradient sevSpec 4).map (fun z => z.radius_m) =
      [64, 64, 48, 32, 16] ∧
    ¬ List.Sorted (fun z w : DamageZone => w.radius_m < z.radius_m)
      (impactRadiiGradient sevSpec 4) := by with_unfolding_all decide

/-- Claim C3: the deflection section of the report exists exactly when all
three deflection parameters are supplied; with any one omitted it is
entirely absent. -/
theorem c3_deflection_section_iff_params (m v : ℚ) (dd wt ae : Option ℚ) :
    ((analyzeImpact m v dd wt ae).deflection).isSome = true ↔
      (dd.isSome = true ∧ wt.isSome = true ∧ ae.isSome = true) := by
  cases dd <;> cases wt <;> cases ae <;> simp [analyzeImpact]

/-- Claim C4: with all three deflection parameters supplied, the analyzer
computes `required = 0.5 · mass · (distance / time)²`, is feasible exactly
when `available ≥ required`, reports `ratio = available / required`, and
fails with `ComputationDegenerate` whenever the required energy is
nonpositive. -/
theorem c4_deflection_energetics (m d w a : ℚ) :
    (1 / 2 * m * (d / w) ^ 2 ≤ 0 →
      assessDeflection m d w a = .error .ComputationDegenerate) ∧
    (0 < 1 / 2 * m * (d / w) ^ 2 →
      ∃ fe req av ra, assessDeflection m d w a = .ok ⟨fe, req, av, ra⟩ ∧
        req = 1 / 2 * m * (d / w) ^ 2 ∧ (fe = true ↔ a ≥ req) ∧
        ra = a / req ∧ av = a) := by
  constructor
  · intro h
    simp only [assessDeflection]
    rw [if_pos h]
  · intro h
    refine ⟨decide (a ≥ 1 / 2 * m * (d / w) ^ 2), 1 / 2 * m * (d / w) ^ 2, a,
      a / (1 / 2 * m * (d / w) ^ 2), ?_, rfl, decide_eq_true_iff, rfl, rfl⟩
    simp only [assessDeflection]
    rw [if_neg (not_le.mpr h)]

/-- Witness for C4 at the spec's worked example (Apophis-like mass with
one-year warning). -/
theorem c4_deflection_energetics_witness :
    0 < 1 / 2 * (2.7e10 : ℚ) * ((1.17e7 : ℚ) / 3.1536e7) ^ 2 ∧
    ∃ fe req av ra,
      assessDeflection 2.7e10 1.17e7 3.1536e7 1e12 = .ok ⟨fe, req, av, ra⟩ ∧
      req = 1 / 2 * (2.7e10 : ℚ) * ((1.17e7 : ℚ) / 3.1536e7) ^ 2 ∧
      (fe = true ↔ (1e12 : ℚ) ≥ req) ∧ ra = 1e12 / req ∧ av = 1e12 :=
  ⟨by norm_num,
    (c4_deflection_energetics 2.7e10 1.17e7 3.1536e7 1e12).2 (by norm_num)⟩

/-- Claim C5: the Energy Calculator returns
`kinetic_energy_J = 0.5 · mass · velocity²` and
`tnt_equivalent_Mt = kinetic_energy_J / 4.184e15`, totally (no failure
mode). -/
theorem c5_energy_calculator (m v : ℚ) :
    (calculateEnergy m v).kinetic_energy_J = 1 / 2 * m * v ^ 2 ∧
    (calculateEnergy m v).tnt_equivalent_Mt =
      (calculateEnergy m v).kinetic_energy_J / 4.184e15 :=
  ⟨rfl, rfl⟩

/-- Claim C6: the Parameter Resolver rejects each out-of-range input with a
`ValidationError` naming the offending field (checks in the spec's order:
diameter, mass, density, velocity, angle, population density, composition),
and returns a resolved object only when every check passes — an error is
never accompanied by a partial result. -/
theorem c6_validation_errors (inp : RawImpactInput) :
    (inp.diameter ≤ 0 →
      resolveParameters inp = .error (.ValidationError "diameter")) ∧
    (0 < inp.diameter →
      ((∀ m, inp.mass = some m → m ≤ 0 →
          resolveParameters inp = .error (.ValidationError "mass")) ∧
       (suppliedNonpos inp.mass = false →
         ((∀ dns, inp.density = some dns → dns ≤ 0 →
             resolveParameters inp = .error (.ValidationError "density")) ∧
          (suppliedNonpos inp.density = false →
            ((∀ vel, inp.velocity = some vel → vel ≤ 0 →
                resolveParameters inp = .error (.ValidationError "velocity")) ∧
             (suppliedNonpos inp.velocity = false →
               ((∀ ang, inp.angle = some ang → (ang < 0 ∨ 90 < ang) →
                   resolveParameters inp = .error (.ValidationError "angle")) ∧
                (suppliedBadAngle inp.angle = false →
                  ((∀ pd, inp.population_density = some pd → pd < 0 →
                      resolveParameters inp =
                        .error (.ValidationError "population_density")) ∧
                   (suppliedNeg inp.population_density = false →
                     ((parseCompositionString inp.composition = none →
                         resolveParameters inp =
                           .error (.ValidationError "composition")) ∧
                      (∀ c, parseCompositionString inp.composition = some c →
                        ∃ r, resolveParameters inp = .ok r))))))))))))) := by
  constructor
  · intro h
    simp [resolveParameters, h]
  · intro hd
    have hdne : ¬ inp.diameter ≤ 0 := not_le.mpr hd
    refine ⟨fun m hm hm0 => ?_, fun hmok => ?_⟩
    · have hb : suppliedNonpos inp.mass = true := by
        simp [suppliedNonpos, hm, hm0]
      simp [resolveParameters, hdne, hb]
    · refine ⟨fun dns hdn hdn0 => ?_, fun hdok => ?_⟩
      · have hb : suppliedNonpos inp.density = true := by
          simp [suppliedNonpos, hdn, hdn0]
        simp [resolveParameters, hdne, hmok, hb]
      · refine ⟨fun vel hv hv0 => ?_, fun hvok => ?_⟩
        · have hb : suppliedNonpos inp.velocity = true := by
            simp [suppliedNonpos, hv, hv0]
          simp [resolveParameters, hdne, hmok, hdok, hb]
        · refine ⟨fun ang hang hangbad => ?_, fun hangok => ?_⟩
          · have hb : suppliedBadAngle inp.angle = true := by
              simp [suppliedBadAngle, hang, hangbad]
            simp [resolveParameters, hdne, hmok, hdok, hvok, hb]
          · refine ⟨fun pd hpd hpd0 => ?_, fun hpok => ?_⟩
            · have hb : suppliedNeg inp.population_density = true := by
                simp [suppliedNeg, hpd, hpd0]
              simp [resolveParameters, hdne, hmok, hdok, hvok, hangok, hb]
            · refine ⟨fun hcomp => ?_, fun c hc => ?_⟩
              · simp [resolveParameters, hdne, hmok, hdok, hvok, hangok,
                  hpok, hcomp]
              · refine ⟨⟨inp.diameter,
                  inp.mass.getD (inp.density.getD (specDensity c) *
                    (4 / 3 * mathPI * (inp.diameter / 2) ^ 3)),
                  inp.density.getD (specDensity c), specStrength c, c,
                  inp.velocity.getD 20000, inp.angle.getD 45,
                  inp.population_density.getD 100⟩, ?_⟩
                simp [resolveParameters, hdne, hmok, hdok, hvok, hangok,
                  hpok, hc]

/-- Witness for C6 at angle 95°: a `ValidationError` naming the angle
field. -/
theorem c6_validation_errors_witness :
    resolveParameters c6wInput = .error (.ValidationError "angle") := by
  have h := c6_validation_errors c6wInput
  exact ((((h.2 (by norm_num [c6wInput])).2 rfl).2 rfl).2 rfl).1 95 rfl
    (Or.inr (by norm_num))

/-- Counterexample to C7 as stated: an explicitly supplied density of `0`
(a falsy value in the source's `!params.density` guard) is overwritten by
the composition default 2500, so the resolved record does not carry the
explicit value. -/
theorem c7_zero_density_overwritten :
    c7cex.density_gcm3 = some 0 ∧
    (extractParametersFromSBDB c7cex).density = some 2500 ∧
    (2500 : ℚ) ≠ 0 * 1000 := by
  refine ⟨rfl, ?_, by norm_num⟩
  norm_num [extractParametersFromSBDB, c7cex, fillDensity, fillMass, truthy,
    compositionOfAlbedo, densityMap]

/-- Claim C7 (amended): an explicitly supplied nonzero density or mass is
never overwritten by a composition default — the resolved record carries
exactly the explicit value (density after the source's documented
g/cm³ → kg/m³ conversion, line 223); only a zero explicit value is treated
as absent. -/
theorem c7_explicit_values_win (inp : SBDBInput) :
    (∀ d : ℚ, inp.density_gcm3 = some d → d ≠ 0 →
      (extractParametersFromSBDB inp).density = some (d * 1000)) ∧
    (∀ m : ℚ, inp.mass_kg = some m → m ≠ 0 →
      (extractParametersFromSBDB inp).mass = some m) := by
  constructor
  · intro d hd hdz
    have hnz : d * 1000 ≠ 0 := mul_ne_zero hdz (by norm_num)
    have ht : truthy (some (d * 1000)) = true := by
      simp [truthy, hnz]
    simp [extractParametersFromSBDB, hd, fillDensity, ht]
  · intro m hm hmz
    have ht : truthy (some m) = true := by
      simp [truthy, hmz]
    simp [extractParametersFromSBDB, hm, fillMass, ht]

/-- Witness for C7 with explicit density 2 g/cm³ and mass 5 kg. -/
theorem c7_explicit_values_win_witness :
    (extractParametersFromSBDB c7w).density = some 2000 ∧
    (extractParametersFromSBDB c7w).mass = some 5 := by
  have h := c7_explicit_values_win c7w
  refine ⟨?_, h.2 5 rfl (by norm_num)⟩
  have := h.1 2 rfl (by norm_num)
  norm_num at this
  exact this

/-- Counterexample to C8 as stated: with both orbital elements present but
eccentricity `0` (falsy in the source's `&&` guard), no typical velocity is
produced at all. -/
theorem c8_zero_eccentricity_no_velocity :
    c8cex.semi_major_axis_au = some 2 ∧ c8cex.eccentricity = some 0 ∧
    (extractParametersFromSBDB c8cex).typical_velocity_sq = none ∧
    typicalVelocityModel c8cex = none := by
  have h : (extractParametersFromSBDB c8cex).typical_velocity_sq = none := by
    with_unfolding_all decide
  exact ⟨rfl, rfl, h, by simp [typicalVelocityModel, h]⟩

/-- Claim C8 (amended): whenever semi-major axis and eccentricity are
present with nonzero values (and the semi-major axis is positive), the
extractor's typical impact velocity is the scalar sum-of-squares
`sqrt(29.78² + 398600.4418 / (a · 149597870.7))` — `v_earth = 29.78` km/s
combined with the source's circular-orbit speed term, not a vector relative
velocity. -/
theorem c8_velocity_formula (inp : SBDBInput) (a e : ℚ)
    (ha : inp.semi_major_axis_au = some a) (hapos : 0 < a)
    (he : inp.eccentricity = some e) (hez : e ≠ 0) :
    (extractParametersFromSBDB inp).typical_velocity_sq =
      some (29.78 ^ 2 + 398600.4418 / (a * 149597870.7)) ∧
    typicalVelocityModel inp =
      some (Real.sqrt ((29.78 ^ 2 + 398600.4418 / (a * 149597870.7) : ℚ) : ℝ)) := by
  have h1 : (extractParametersFromSBDB inp).typical_velocity_sq =
      some (29.78 ^ 2 + 398600.4418 / (a * 149597870.7)) := by
    simp [extractParametersFromSBDB, typicalVelocitySq, ha, he, truthy,
      hapos.ne', hez]
  exact ⟨h1, by simp [typicalVelocityModel, h1]⟩

/-- Witness for C8 at semi-major axis 1 au, eccentricity 1/2. -/
theorem c8_velocity_formula_witness :
    (extractParametersFromSBDB c8w).typical_velocity_sq =
      some (29.78 ^ 2 + 398600.4418 / (1 * 149597870.7)) ∧
    typicalVelocityModel c8w =
      some (Real.sqrt ((29.78 ^ 2 + 398600.4418 / (1 * 149597870.7) : ℚ) : ℝ)) :=
  c8_velocity_formula c8w 1 (1 / 2) rfl (by norm_num) rfl (by norm_num)

/-- Claim C9: whenever inclination is present, the extractor's typical
impact angle is `clamp(inclination · 0.5 + 30, 15, 90)`, and any produced
angle lies in [15, 90]. -/
theorem c9_angle_clamp (inp : SBDBInput) (i : ℚ)
    (h : inp.inclination_deg = some i) :
    (extractParametersFromSBDB inp).typical_angle =
      some (min 90 (max 15 (i * 0.5 + 30))) ∧
    (∀ θ : ℚ, (extractParametersFromSBDB inp).typical_angle = some θ →
      15 ≤ θ ∧ θ ≤ 90) := by
  have h1 : (extractParametersFromSBDB inp).typical_angle =
      some (min 90 (max 15 (i * 0.5 + 30))) := by
    simp [extractParametersFromSBDB, typicalAngle, h]
  refine ⟨h1, fun θ hθ => ?_⟩
  rw [h1, Option.some_inj] at hθ
  subst hθ
  exact ⟨le_min (by norm_num) (le_max_left _ _), min_le_left _ _⟩

/-- Witness for C9 at inclination 10°: the clamp yields 35°. -/
theorem c9_angle_clamp_witness :
    (extractParametersFromSBDB c9w).typical_angle = some 35 ∧
    (15 : ℚ) ≤ 35 ∧ (35 : ℚ) ≤ 90 := by
  have h := c9_angle_clamp c9w 10 rfl
  have h35 : min (90 : ℚ) (max 15 (10 * 0.5 + 30)) = 35 := by norm_num
  exact ⟨h.1.trans (by rw [h35]), by norm_num, by norm_num⟩

/-- Claim C10: the albedo-based composition classification returns METALLIC
for albedo > 0.2, CARBONACEOUS for albedo < 0.05, and ROCKY otherwise
(including when albedo is absent); it never returns ICY. -/
theorem c10_albedo_classifier (inp : SBDBInput) :
    (extractParametersFromSBDB inp).composition =
      (match inp.geometric_albedo with
       | some alb =>
           if alb > 0.2 then Composition.METALLIC
           else if alb < 0.05 then Composition.CARBONACEOUS
           else Composition.ROCKY
       | none => Composition.ROCKY) ∧
    (extractParametersFromSBDB inp).composition ≠ Composition.ICY := by
  have hc : (extractParametersFromSBDB inp).composition =
      compositionOfAlbedo inp.geometric_albedo := rfl
  constructor
  · rw [hc]
    cases inp.geometric_albedo <;> rfl
  · rw [hc]
    cases inp.geometric_albedo with
    | none => simp [compositionOfAlbedo]
    | some alb =>
        simp only [compositionOfAlbedo]
        split_ifs <;> simp

end MeteorMadness
